import Mathlib

/-!
Shallow embedding of go-sipantau (src/main.go): a crawler over a remote
hierarchical data source that fetches location listings, descends to
TPS leaves (tingkat 4 children), filters leaf records on status_suara and
hands accepted records to a MongoDB sink over a channel.  Line numbers in
the comments refer to src/main.go.
-/

namespace Sipantau

/-! ## Go string helpers (strings.TrimRight, strings.ReplaceAll) -/

/-- Go strings.TrimRight(s, cutset): removes the longest trailing run of
characters that are contained in cutset.  The second argument is a set of
characters, not a suffix. -/
def goTrimRight (s cutset : List Char) : List Char :=
  ((s.reverse).dropWhile (fun c => cutset.contains c)).reverse

/-- Auxiliary recursion for goReplaceAll, one fuel step per consumed
character: fuel = s.length always suffices because every step consumes at
least one character of s. -/
def replaceAllAux (old new : List Char) : Nat → List Char → List Char
  | _, [] => []
  | 0, s => s
  | fuel + 1, c :: s =>
    if old.isPrefixOf (c :: s) && !old.isEmpty then
      new ++ replaceAllAux old new fuel (List.drop (old.length - 1) s)
    else
      c :: replaceAllAux old new fuel s

/-- Go strings.ReplaceAll(s, old, new) for nonempty old: replaces all
non-overlapping occurrences of old, scanning left to right.  The program
only calls it with old = "wilayah/pemilu/ppwp"; Go's empty-old behaviour
(interleaving new between characters) is not used and not modelled. -/
def goReplaceAll (s old new : List Char) : List Char :=
  replaceAllAux old new s.length s

/-- String-level wrapper of goTrimRight. -/
def goTrimRightS (s cutset : String) : String :=
  String.mk (goTrimRight s.data cutset.data)

/-- String-level wrapper of goReplaceAll. -/
def goReplaceAllS (s old new : String) : String :=
  String.mk (goReplaceAll s.data old.data new.data)

/-! ## JSON values and encoding/json decoding

The bodies the program decodes are JSON documents; we model them after the
syntax phase as a `JVal`.  A body that is not syntactically valid JSON is
folded into the fetch-error outcome of the `World` oracle below, exactly as
a transport error is, since in both cases `json.Unmarshal` writes nothing.
Numbers are integers because every numeric field of the source schema is
integral. -/
inductive JVal where
  | null
  | bool (b : Bool)
  | num (n : Int)
  | str (s : String)
  | arr (elems : List JVal)
  | obj (fields : List (String × JVal))

/-- ASCII lower-casing, for encoding/json's case-insensitive match of object
keys against struct field tags. -/
def lowerAscii (c : Char) : Char :=
  if 'A' ≤ c ∧ c ≤ 'Z' then Char.ofNat (c.toNat + 32) else c

/-- encoding/json matches an incoming object key to a struct field tag
exactly or case-insensitively. -/
def keyMatches (k name : String) : Bool :=
  k.data.map lowerAscii == name.data.map lowerAscii

/-- The value encoding/json leaves in the struct field tagged `name`:
object keys are processed in order and each matching key overwrites the
field, so the last matching key wins; no matching key leaves the field at
its zero value (`none` here). -/
def lookupField (fields : List (String × JVal)) (name : String) : Option JVal :=
  ((fields.filter (fun kv => keyMatches kv.1 name)).getLast?).map (fun kv => kv.2)

/-- Decode an int-typed struct field.  Absent keys and JSON null leave the
zero value without error; a non-number is an UnmarshalTypeError: the error
is saved, the field keeps its zero value, and decoding continues. -/
def decIntField (fields : List (String × JVal)) (name : String) : Int × Option String :=
  match lookupField fields name with
  | none => (0, none)
  | some JVal.null => (0, none)
  | some (JVal.num n) => (n, none)
  | some _ => (0, some "json: cannot unmarshal value into field of type int")

/-- Decode a string-typed struct field; same error discipline as decIntField. -/
def decStrField (fields : List (String × JVal)) (name : String) : String × Option String :=
  match lookupField fields name with
  | none => ("", none)
  | some JVal.null => ("", none)
  | some (JVal.str s) => (s, none)
  | some _ => ("", some "json: cannot unmarshal value into field of type string")

/-- Decode a bool-typed struct field; same error discipline as decIntField. -/
def decBoolField (fields : List (String × JVal)) (name : String) : Bool × Option String :=
  match lookupField fields name with
  | none => (false, none)
  | some JVal.null => (false, none)
  | some (JVal.bool b) => (b, none)
  | some _ => (false, some "json: cannot unmarshal value into field of type bool")

/-- Is a JSON value a number? -/
def isNumV : JVal → Bool
  | JVal.num _ => true
  | _ => false

/-- Is a JSON value a string? -/
def isStrV : JVal → Bool
  | JVal.str _ => true
  | _ => false

/-- Decode a map[string]int field (TPSData.Chart): each entry must be a
number; a non-number entry is a saved type error and the entry is skipped,
decoding of the remaining entries continues. -/
def decChartField (fields : List (String × JVal)) (name : String) :
    List (String × Int) × Option String :=
  match lookupField fields name with
  | none => ([], none)
  | some JVal.null => ([], none)
  | some (JVal.obj entries) =>
    (entries.filterMap (fun kv =>
        match kv.2 with
        | JVal.num n => some (kv.1, n)
        | _ => none),
     if entries.all (fun kv => isNumV kv.2) then none
     else some "json: cannot unmarshal value into map entry of type int")
  | some _ => ([], some "json: cannot unmarshal value into field of type map")

/-- Decode a []string field (TPSData.Images): a non-string element is a
saved type error and that element stays at its zero value "". -/
def decImagesField (fields : List (String × JVal)) (name : String) :
    List String × Option String :=
  match lookupField fields name with
  | none => ([], none)
  | some JVal.null => ([], none)
  | some (JVal.arr elems) =>
    (elems.map (fun e => match e with | JVal.str s => s | _ => ""),
     if elems.all isStrV then none
     else some "json: cannot unmarshal value into element of type string")
  | some _ => ([], some "json: cannot unmarshal value into field of type slice")

/-- Decode an interface-typed field (TPSData.PSU): any JSON value is
accepted as-is and never produces an error; absent keys leave the zero
value, which for an interface is nil (JSON null here). -/
def decAnyField (fields : List (String × JVal)) (name : String) : JVal :=
  (lookupField fields name).getD JVal.null

/-- Administrasi, src/main.go lines 151-170: the 18 integer counters of the
administrative block, with their json tags. -/
structure Administrasi where
  SuaraSah : Int := 0
  SuaraTotal : Int := 0
  PemilihDPTJ : Int := 0
  PemilihDPTL : Int := 0
  PemilihDPTP : Int := 0
  PenggunaDPTJ : Int := 0
  PenggunaDPTL : Int := 0
  PenggunaDPTP : Int := 0
  PenggunaDPTBJ : Int := 0
  PenggunaDPTBL : Int := 0
  PenggunaDPTBP : Int := 0
  SuaraTidakSah : Int := 0
  PenggunaTotalJ : Int := 0
  PenggunaTotalL : Int := 0
  PenggunaTotalP : Int := 0
  PenggunaNonDPTJ : Int := 0
  PenggunaNonDPTL : Int := 0
  PenggunaNonDPTP : Int := 0

/-- Decode an Administrasi object body field by field (tags of lines
152-169).  The error is the first saved field error. -/
def decodeAdministrasi (fields : List (String × JVal)) : Administrasi × Option String :=
  ({ SuaraSah := (decIntField fields "suara_sah").1
     SuaraTotal := (decIntField fields "suara_total").1
     PemilihDPTJ := (decIntField fields "pemilih_dpt_j").1
     PemilihDPTL := (decIntField fields "pemilih_dpt_l").1
     PemilihDPTP := (decIntField fields "pemilih_dpt_p").1
     PenggunaDPTJ := (decIntField fields "pengguna_dpt_j").1
     PenggunaDPTL := (decIntField fields "pengguna_dpt_l").1
     PenggunaDPTP := (decIntField fields "pengguna_dpt_p").1
     PenggunaDPTBJ := (decIntField fields "pengguna_dptb_j").1
     PenggunaDPTBL := (decIntField fields "pengguna_dptb_l").1
     PenggunaDPTBP := (decIntField fields "pengguna_dptb_p").1
     SuaraTidakSah := (decIntField fields "suara_tidak_sah").1
     PenggunaTotalJ := (decIntField fields "pengguna_total_j").1
     PenggunaTotalL := (decIntField fields "pengguna_total_l").1
     PenggunaTotalP := (decIntField fields "pengguna_total_p").1
     PenggunaNonDPTJ := (decIntField fields "pengguna_non_dpt_j").1
     PenggunaNonDPTL := (decIntField fields "pengguna_non_dpt_l").1
     PenggunaNonDPTP := (decIntField fields "pengguna_non_dpt_p").1 },
   (decIntField fields "suara_sah").2 <|> (decIntField fields "suara_total").2 <|>
   (decIntField fields "pemilih_dpt_j").2 <|> (decIntField fields "pemilih_dpt_l").2 <|>
   (decIntField fields "pemilih_dpt_p").2 <|> (decIntField fields "pengguna_dpt_j").2 <|>
   (decIntField fields "pengguna_dpt_l").2 <|> (decIntField fields "pengguna_dpt_p").2 <|>
   (decIntField fields "pengguna_dptb_j").2 <|> (decIntField fields "pengguna_dptb_l").2 <|>
   (decIntField fields "pengguna_dptb_p").2 <|> (decIntField fields "suara_tidak_sah").2 <|>
   (decIntField fields "pengguna_total_j").2 <|> (decIntField fields "pengguna_total_l").2 <|>
   (decIntField fields "pengguna_total_p").2 <|> (decIntField fields "pengguna_non_dpt_j").2 <|>
   (decIntField fields "pengguna_non_dpt_l").2 <|> (decIntField fields "pengguna_non_dpt_p").2)

/-- Decode the Administrasi-typed struct field of TPSData. -/
def decAdmField (fields : List (String × JVal)) (name : String) :
    Administrasi × Option String :=
  match lookupField fields name with
  | none => ({}, none)
  | some JVal.null => ({}, none)
  | some (JVal.obj f2) => decodeAdministrasi f2
  | some _ => ({}, some "json: cannot unmarshal value into field of type Administrasi")

/-- TPSData, src/main.go lines 139-149, with the json tags of the source.
PSU is Go interface untyped data; its zero value is nil, JVal.null here. -/
structure TPSData where
  Id : Int := 0
  Mode : String := ""
  Chart : List (String × Int) := []
  Images : List String := []
  Administrasi : Administrasi := {}
  PSU : JVal := JVal.null
  TS : String := ""
  StatusSuara : Bool := false
  StatusAdm : Bool := false

/-- The json tags of TPSData's fields, lines 140-148. -/
def tpsFieldTags : List String :=
  ["id", "mode", "chart", "images", "administrasi", "psu", "ts",
   "status_suara", "status_adm"]

/-- json.Unmarshal of a body into a fresh TPSData (line 131).  An object is
decoded field by field: unknown keys are ignored, field type errors are
saved while the remaining fields are still decoded (Go's
UnmarshalTypeError discipline), null is a no-op, and a non-object body is
an error that leaves the whole value at zero. -/
def decodeTPSData : JVal → TPSData × Option String
  | JVal.obj fields =>
    ({ Id := (decIntField fields "id").1
       Mode := (decStrField fields "mode").1
       Chart := (decChartField fields "chart").1
       Images := (decImagesField fields "images").1
       Administrasi := (decAdmField fields "administrasi").1
       PSU := decAnyField fields "psu"
       TS := (decStrField fields "ts").1
       StatusSuara := (decBoolField fields "status_suara").1
       StatusAdm := (decBoolField fields "status_adm").1 },
     (decIntField fields "id").2 <|> (decStrField fields "mode").2 <|>
     (decChartField fields "chart").2 <|> (decImagesField fields "images").2 <|>
     (decAdmField fields "administrasi").2 <|> (decStrField fields "ts").2 <|>
     (decBoolField fields "status_suara").2 <|> (decBoolField fields "status_adm").2)
  | JVal.null => ({}, none)
  | _ => ({}, some "json: cannot unmarshal value into TPSData")

/-- Location, src/main.go lines 20-25, with its json tags. -/
structure Location where
  Nama : String := ""
  ID : Int := 0
  Kode : String := ""
  Tingkat : Int := 0

/-- json.Unmarshal of one array element into a Location. -/
def decodeLocation : JVal → Location × Option String
  | JVal.obj fields =>
    ({ Nama := (decStrField fields "nama").1
       ID := (decIntField fields "id").1
       Kode := (decStrField fields "kode").1
       Tingkat := (decIntField fields "tingkat").1 },
     (decStrField fields "nama").2 <|> (decIntField fields "id").2 <|>
     (decStrField fields "kode").2 <|> (decIntField fields "tingkat").2)
  | JVal.null => ({}, none)
  | _ => ({}, some "json: cannot unmarshal value into Location")

/-- json.Unmarshal of a body into []Location (line 111): an array is
decoded element by element, saving the first element error but continuing;
a non-array body is an error. -/
def decodeLocations : JVal → List Location × Option String
  | JVal.arr elems =>
    ((elems.map decodeLocation).map (fun r => r.1),
     (elems.map decodeLocation).foldr (fun r acc => r.2 <|> acc) none)
  | JVal.null => ([], none)
  | _ => ([], some "json: cannot unmarshal value into Location slice")

/-! ## strconv.ParseInt(s, 10, 64) (used at line 234) -/

/-- The numeric value of a decimal digit, none for a non-digit. -/
def digitVal? (c : Char) : Option Nat :=
  if '0' ≤ c ∧ c ≤ '9' then some (c.toNat - 48) else none

/-- Accumulate a decimal value over the remaining characters; none on the
first non-digit (Go's ErrSyntax). -/
def decDigitsAux (acc : Nat) : List Char → Option Nat
  | [] => some acc
  | c :: rest =>
    match digitVal? c with
    | some d => decDigitsAux (acc * 10 + d) rest
    | none => none

/-- The decimal value of a nonempty all-digit string, none otherwise. -/
def decDigits? : List Char → Option Nat
  | [] => none
  | l => decDigitsAux 0 l

/-- Sign-stripped core of strconv.ParseInt(s, 10, 64).  Go returns
(0, ErrSyntax) on empty or non-digit input, and on a syntactically valid
value outside the int64 range it returns the nearest bound together with
ErrRange (not zero).  The Bool is err == nil. -/
def parseInt64Core (neg : Bool) (digits : List Char) : Int × Bool :=
  match decDigits? digits with
  | none => (0, false)
  | some v =>
    if neg = false ∧ (2 : Int) ^ 63 ≤ (v : Int) then ((2 : Int) ^ 63 - 1, false)
    else if neg = true ∧ (2 : Int) ^ 63 < (v : Int) then (-((2 : Int) ^ 63), false)
    else (if neg then -(v : Int) else (v : Int), true)

/-- strconv.ParseInt(s, 10, 64): optional leading sign, then decimal
digits; the Bool is err == nil. -/
def parseInt64 (s : String) : Int × Bool :=
  match s.data with
  | [] => (0, false)
  | c :: rest =>
    if c = '+' then parseInt64Core false rest
    else if c = '-' then parseInt64Core true rest
    else parseInt64Core false (c :: rest)

/-! ## The network oracle and the fetchers -/

/-- Outcome of one http.Get plus body read: a transport-level failure (or a
body that is not syntactically valid JSON, which equally leaves the decode
target untouched), or a parsed JSON body. -/
inductive HTTPResult where
  | netErr (msg : String)
  | body (v : JVal)

/-- The remote source, modelled as an oracle from URL to response: the one
external collaborator of the fetchers (spec section 6 source protocol). -/
structure World where
  http : String → HTTPResult

/-- fetchLocations, lines 97-117: GET the URL, read the body, unmarshal
into []Location; on any error the caller receives nil and the error. -/
def fetchLocations (w : World) (url : String) : Except String (List Location) :=
  match w.http url with
  | HTTPResult.netErr e => Except.error e
  | HTTPResult.body v =>
    match decodeLocations v with
    | (_, some e) => Except.error e
    | (locs, none) => Except.ok locs

/-- fetchDataTPS, lines 119-137: Go named returns — on a transport error
`data` stays at its zero value, on an unmarshal error `data` holds whatever
json.Unmarshal wrote before and around the failing field.  The pair is
exactly (data, err) as the function returns them. -/
def fetchDataTPS (w : World) (url : String) : TPSData × Option String :=
  match w.http url with
  | HTTPResult.netErr e => ({}, some e)
  | HTTPResult.body v => decodeTPSData v

/-! ## URL construction -/

/-- The fixed base URL, line 60. -/
def baseURL : String := "https://sirekap-obj-data.kpu.go.id/wilayah/pemilu/ppwp/"

/-- The characters of ".json", used both as the suffix appended to URLs and
as the cutset handed to strings.TrimRight. -/
def jsonExt : List Char := ".json".data

/-- Child-listing URL, lines 218 and 247: url := burl + loc.Kode + ".json". -/
def childListingURL (burl kode : String) : String :=
  burl ++ kode ++ ".json"

/-- Leaf-result URL as the characters of line 230 compute it:
strings.TrimRight(strings.ReplaceAll(url, "wilayah/pemilu/ppwp",
"pemilu/hhcw/ppwp"), ".json") + "/" + kode + ".json". -/
def leafResultURLChars (url kode : List Char) : List Char :=
  goTrimRight (goReplaceAll url ("wilayah/pemilu/ppwp".data) ("pemilu/hhcw/ppwp".data))
      jsonExt
    ++ '/' :: (kode ++ jsonExt)

/-- String-level leaf-result URL (line 230). -/
def leafResultURL (url kode : String) : String :=
  String.mk (leafResultURLChars url.data kode.data)

/-- The spec's removal of the trailing ".json": drop the suffix ".json"
when present.  This is the spec's wording; the source's strings.TrimRight
removes a trailing character run instead. -/
def trimSuffixJson (s : List Char) : List Char :=
  if jsonExt.isSuffixOf s then s.take (s.length - jsonExt.length) else s

/-- Modelled from the spec: the leaf-result URL as the spec words it —
the URL with the path segment "wilayah/pemilu/ppwp" replaced by
"pemilu/hhcw/ppwp", the trailing ".json" removed, then "/" + code +
".json" appended.  Kept beside leafResultURLChars for the refinement
comparison of claim C7. -/
def leafResultURLSpecChars (url kode : List Char) : List Char :=
  trimSuffixJson (goReplaceAll url ("wilayah/pemilu/ppwp".data) ("pemilu/hhcw/ppwp".data))
    ++ '/' :: (kode ++ jsonExt)

/-! ## The crawl engine (fetchAndStoreTPS, processAndStoreLocation)

The concurrent goroutines are sequentialised: the list of records a call
sends on dataChannel is returned in traversal order (no claim depends on
arrival order, which the program leaves unspecified across siblings).  The
Except component is the function's returned error value. -/

/-- The value of the local `data` at line 235: the fetch result of line
230, with Id overwritten at line 234 by strconv.ParseInt(subLoc.Kode, 10,
64) whose error is discarded. -/
def tpsLeafRecord (w : World) (url : String) (subLoc : Location) : TPSData :=
  { (fetchDataTPS w (leafResultURL url subLoc.Kode)).1 with
    Id := (parseInt64 subLoc.Kode).1 }

/-- The leaf goroutine body, lines 228-238: fetch the leaf result (a
failure is only printed), patch Id from the child's Kode, and send the
record on dataChannel exactly when data.StatusSuara holds.  The result is
the record sent, or none when the record is dropped. -/
def processTPSChild (w : World) (url : String) (subLoc : Location) : Option TPSData :=
  let fetched := fetchDataTPS w (leafResultURL url subLoc.Kode)
  let data : TPSData := { fetched.1 with Id := (parseInt64 subLoc.Kode).1 }
  if data.StatusSuara then some data else none

/-- fetchAndStoreTPS, lines 216-243: fetch the child listing of the
terminal-level location (an error there is returned), then spawn one leaf
task per child; the function itself returns nil whatever the leaf tasks
do.  First component: the records sent on dataChannel. -/
def fetchAndStoreTPS (w : World) (burl : String) (loc : Location) :
    List TPSData × Except String Unit :=
  match fetchLocations w (childListingURL burl loc.Kode) with
  | Except.error e => ([], Except.error e)
  | Except.ok subLocations =>
    (subLocations.filterMap (processTPSChild w (childListingURL burl loc.Kode)),
     Except.ok ())

/-- processAndStoreLocation, lines 245-273: fetch the child listing (an
error there is returned), then per child either recurse (tingkat ≠ 4) or
run the terminal-level expansion (tingkat = 4), with the next base URL
strings.TrimRight(url, ".json") + "/" (lines 261 and 263); child errors
are only printed and the function returns nil.  The fuel argument bounds
the recursion depth of the model; the program's recursion is finite
because tingkat strictly increases towards the terminal level. -/
def processAndStoreLocation (w : World) :
    Nat → String → Location → List TPSData × Except String Unit
  | 0, _, _ => ([], Except.error "model: recursion fuel exhausted")
  | fuel + 1, burl, loc =>
    match fetchLocations w (childListingURL burl loc.Kode) with
    | Except.error e => ([], Except.error e)
    | Except.ok subLocations =>
      ((subLocations.map (fun subLoc =>
          if subLoc.Tingkat = 4 then
            (fetchAndStoreTPS w
              (goTrimRightS (childListingURL burl loc.Kode) ".json" ++ "/") subLoc).1
          else
            (processAndStoreLocation w fuel
              (goTrimRightS (childListingURL burl loc.Kode) ".json" ++ "/") subLoc).1)).flatten,
       Except.ok ())

/-! ## The sink (insertData, lines 173-214) -/

/-- Modelled from the spec (section 6 storage sink contract) because the
store itself is external: insertOne succeeds and appends the document, or
fails with a duplicate-key error when a document with that id is already
present — the uniqueness constraint the sink installs on id (lines
184-191). -/
def mongoInsertOne (store : List TPSData) (doc : TPSData) :
    Except String (List TPSData) :=
  if store.any (fun d => d.Id == doc.Id) then Except.error "duplicate key"
  else Except.ok (store ++ [doc])

/-- The consumption loop of insertData, lines 194-210, over the finite
sequence of records the producers send before the channel would close:
one InsertOne per received record, and on any insert error the function
returns at once (line 206), consuming nothing further.  Result: the store
contents and the returned error (none = the loop drained the channel). -/
def insertDataLoop (store : List TPSData) :
    List TPSData → List TPSData × Option String
  | [] => (store, none)
  | doc :: rest =>
    match mongoInsertOne store doc with
    | Except.error e => (store, some e)
    | Except.ok store2 => insertDataLoop store2 rest

/-! ## LimitedWaitGroup (lines 27-58)

The semaphore channel `sem` has capacity `limit`; Add(delta) panics when
delta exceeds limit (line 42) and otherwise performs delta blocking sends,
Done receives one token.  `count` is the number of tokens in sem: the
reserved-and-not-yet-released slots. -/
structure LimitedWaitGroup where
  limit : Nat
  count : Nat

/-- NewLimitedWaitGroup, lines 33-39: an empty semaphore of capacity limit. -/
def NewLimitedWaitGroup (limit : Nat) : LimitedWaitGroup :=
  { limit := limit, count := 0 }

/-- Line 42: Add(delta) panics when delta is larger than limit. -/
def addPanics (g : LimitedWaitGroup) (delta : Nat) : Bool :=
  g.limit < delta

/-- One semaphore interaction: one of the delta sends of Add (line 47), or
the receive of Done (line 52). -/
inductive SemOp where
  | addToken
  | doneToken
  deriving DecidableEq

/-- A channel send blocks while the buffer is full and a receive blocks
while it is empty: none = the caller blocks, the state is unchanged. -/
def semStep (g : LimitedWaitGroup) : SemOp → Option LimitedWaitGroup
  | SemOp.addToken =>
    if g.count < g.limit then some { limit := g.limit, count := g.count + 1 } else none
  | SemOp.doneToken =>
    if 0 < g.count then some { limit := g.limit, count := g.count - 1 } else none

/-- Run a sequence of semaphore interactions; a blocked interaction leaves
the state unchanged (the blocked caller simply waits). -/
def semRun (g : LimitedWaitGroup) : List SemOp → LimitedWaitGroup
  | [] => g
  | op :: ops => semRun ((semStep g op).getD g) ops

/-! ## Statement traces

One constructor per relevant statement of src/main.go, in source order, for
the control-flow claims: what each function does and — decisively — what it
never does.  closeDataChannel exists only so its absence is statable. -/
inductive GoStmt where
  | loadDotenv              -- line 63
  | fetchInitialLocations   -- line 70
  | makeDataChannel         -- line 77
  | goInsertData            -- line 79
  | wgAddOne                -- line 84, per root child
  | goProcessChild          -- lines 85-91, per root child
  | wgWaitMain              -- line 93
  | printAllProcessed       -- line 94
  | closeDataChannel        -- in no function of main.go
  | mongoConnect            -- line 174
  | ensureUniqueIndex       -- lines 184-191
  | rangeChannelInsert      -- lines 194-210, return on insert error
  | printEnded              -- line 211
  | returnNil               -- lines 213, 242, 272
  | buildChildURL           -- lines 218, 247
  | fetchListing            -- lines 219, 248, return on error
  | newLimitedWaitGroup     -- lines 225, 254
  | lwgAdd                  -- lines 227, 256, per child
  | goLeafTask              -- lines 228-238, per child
  | goSubtreeTask           -- lines 257-268, per child
  | lwgWait                 -- line 270
  | deferLwgDone            -- lines 229, 258
  | fetchTPSData            -- line 230
  | printFetchErr           -- lines 231-233
  | patchId                 -- line 234
  | condSendChannel         -- lines 235-237
  | printProcessing         -- line 259
  | branchOnTingkat         -- lines 260-264
  | printChildErr           -- lines 265-267
  deriving DecidableEq

/-- main, lines 62-95. -/
def mainStmts : List GoStmt :=
  [GoStmt.loadDotenv, GoStmt.fetchInitialLocations, GoStmt.makeDataChannel,
   GoStmt.goInsertData, GoStmt.wgAddOne, GoStmt.goProcessChild,
   GoStmt.wgWaitMain, GoStmt.printAllProcessed]

/-- insertData, lines 173-214. -/
def insertDataStmts : List GoStmt :=
  [GoStmt.mongoConnect, GoStmt.ensureUniqueIndex, GoStmt.rangeChannelInsert,
   GoStmt.printEnded, GoStmt.returnNil]

/-- fetchAndStoreTPS, lines 216-243: note there is no lwgWait — the
function returns nil straight after spawning the leaf tasks. -/
def fetchAndStoreTPSStmts : List GoStmt :=
  [GoStmt.buildChildURL, GoStmt.fetchListing, GoStmt.newLimitedWaitGroup,
   GoStmt.lwgAdd, GoStmt.goLeafTask, GoStmt.returnNil]

/-- The leaf goroutine, lines 228-238. -/
def leafTaskStmts : List GoStmt :=
  [GoStmt.deferLwgDone, GoStmt.fetchTPSData, GoStmt.printFetchErr,
   GoStmt.patchId, GoStmt.condSendChannel]

/-- processAndStoreLocation, lines 245-273: wg.Wait() at line 270, before
the return. -/
def processAndStoreLocationStmts : List GoStmt :=
  [GoStmt.buildChildURL, GoStmt.fetchListing, GoStmt.newLimitedWaitGroup,
   GoStmt.lwgAdd, GoStmt.goSubtreeTask, GoStmt.lwgWait, GoStmt.returnNil]

/-- The subtree goroutine, lines 257-268. -/
def subtreeTaskStmts : List GoStmt :=
  [GoStmt.deferLwgDone, GoStmt.printProcessing, GoStmt.branchOnTingkat,
   GoStmt.printChildErr]

/-- Every statement of the program, all six bodies concatenated. -/
def programStmts : List GoStmt :=
  mainStmts ++ insertDataStmts ++ fetchAndStoreTPSStmts ++ leafTaskStmts ++
    processAndStoreLocationStmts ++ subtreeTaskStmts

/-! ## Concrete worlds and records used by witnesses and counterexamples -/

/-- A world whose every leaf body decodes cleanly with status_suara true. -/
def wTrue : World :=
  { http := fun _ => HTTPResult.body (JVal.obj [("status_suara", JVal.bool true)]) }

/-- A world where every fetch fails at the transport level. -/
def wNet : World :=
  { http := fun _ => HTTPResult.netErr "connection refused" }

/-- A world whose leaf bodies are malformed (mode is a number, not a
string) yet carry status_suara true: json.Unmarshal returns an
UnmarshalTypeError while still setting StatusSuara. -/
def wBadMode : World :=
  { http := fun _ =>
      HTTPResult.body (JVal.obj [("mode", JVal.num 5), ("status_suara", JVal.bool true)]) }

/-- A world whose every listing is the empty array. -/
def wEmptyList : World :=
  { http := fun _ => HTTPResult.body (JVal.arr []) }

/-- A plausible terminal-level child-listing URL. -/
def urlTerm : String := childListingURL baseURL "1101012001"

/-- A leaf descriptor at the terminal level. -/
def locLeaf : Location := { Kode := "5001", Tingkat := 5 }

/-- A root-level descriptor. -/
def locRoot : Location := { Kode := "11", Tingkat := 1 }

/-! ## Shared helper lemmas -/

/-- The record at line 235 keeps the StatusSuara that the fetch (or its
zero value) carried: the id patch of line 234 touches only Id. -/
theorem tpsLeafRecord_statusSuara (w : World) (url : String) (subLoc : Location) :
    (tpsLeafRecord w url subLoc).StatusSuara =
      (fetchDataTPS w (leafResultURL url subLoc.Kode)).1.StatusSuara := rfl

/-- processTPSChild as a conditional on the patched record. -/
theorem processTPSChild_eq_ite (w : World) (url : String) (subLoc : Location) :
    processTPSChild w url subLoc =
      if (tpsLeafRecord w url subLoc).StatusSuara then some (tpsLeafRecord w url subLoc)
      else none := rfl

/-! ## Claim C1 -/

/-- Claim C1: a leaf record is sent on the output channel exactly when its
StatusSuara flag is true — isSome of the send equals the flag — and what
is sent is exactly the fetched record with the patched id (so a record
with the flag false is dropped: never sent, hence never persisted, and the
leaf task performs no retry).  getD returns the sent record when one was
sent and the default otherwise, so the second equation says any sent
record is tpsLeafRecord itself. -/
theorem leaf_sent_iff_suara_confirmed (w : World) (url : String) (subLoc : Location) :
    (processTPSChild w url subLoc).isSome = (tpsLeafRecord w url subLoc).StatusSuara ∧
    (processTPSChild w url subLoc).getD (tpsLeafRecord w url subLoc) =
      tpsLeafRecord w url subLoc := by
  rw [processTPSChild_eq_ite]
  cases hs : (tpsLeafRecord w url subLoc).StatusSuara <;> simp [hs]

/-! ## Claim C2 -/

/-- Claim C2: the non-terminal expansion processAndStoreLocation does call
Wait on its own LimitedWaitGroup before returning (line 270), but the
terminal-level expansion fetchAndStoreTPS contains no Wait at all — it
returns nil right after spawning its leaf tasks (lines 226-242), so a call
can return while its last spawned leaf fetch is still in flight. -/
theorem fetchAndStoreTPS_missing_wait :
    processAndStoreLocationStmts.count GoStmt.lwgWait = 1 ∧
    fetchAndStoreTPSStmts.count GoStmt.lwgWait = 0 := by decide

/-! ## Claim C3 -/

/-- Claim C3: no statement of main — in fact no statement anywhere in
main.go — closes dataChannel, so the sink's range loop (line 194) can
never terminate by channel closure and the drain-completion code of
insertData (lines 211-213) is unreachable along that path. -/
theorem channel_never_closed :
    mainStmts.count GoStmt.closeDataChannel = 0 ∧
    programStmts.count GoStmt.closeDataChannel = 0 := by decide

/-! ## Claim C4 -/

/-- A confirmed record with id 7. -/
def dupRecA : TPSData := { Id := 7, StatusSuara := true }

/-- A second record with the same id 7 from a duplicate code. -/
def dupRecB : TPSData := { Id := 7, Mode := "hhcw", StatusSuara := true }

/-- A record with the fresh id 8. -/
def freshRec : TPSData := { Id := 8, StatusSuara := true }

/-- Claim C4 counterexample: the sink does not continue past a duplicate-key
insert.  With the stream [dupRecA, dupRecB, freshRec], the second insert
hits the uniqueness constraint and insertData returns at once (line 206):
freshRec is never attempted — the final store is [dupRecA] and the loop
ends with the duplicate-key error, not by channel closure. -/
theorem sink_halts_on_duplicate_cex :
    insertDataLoop [] [dupRecA, dupRecB, freshRec] = ([dupRecA], some "duplicate key") := rfl

/-- Claim C4 amended: the sink performs one insert attempt per consumed
record, but consumes only until the first insert error: any insert error —
a duplicate key included — makes insertData return immediately with the
wrapped error (which its caller, a bare goroutine, discards), and the
records after it are never attempted; only an error-free run consumes the
whole stream, inserting every record in order. -/
theorem sink_one_attempt_until_first_error :
    (∀ store doc rest e, mongoInsertOne store doc = Except.error e →
      insertDataLoop store (doc :: rest) = (store, some e)) ∧
    (∀ rs store, (insertDataLoop store rs).2 = none →
      (insertDataLoop store rs).1 = store ++ rs) := by
  constructor
  · intro store doc rest e h
    simp only [insertDataLoop]
    rw [h]
  · intro rs
    induction rs with
    | nil => intro store _; simp [insertDataLoop]
    | cons doc rest ih =>
      intro store h
      rcases hmi : mongoInsertOne store doc with e | store2
      · simp only [insertDataLoop] at h
        rw [hmi] at h
        simp at h
      · have hst : store2 = store ++ [doc] := by
          unfold mongoInsertOne at hmi
          by_cases hd : store.any (fun d => d.Id == doc.Id) <;> simp [hd] at hmi
          exact hmi.symm
        simp only [insertDataLoop] at h ⊢
        rw [hmi] at h ⊢
        rw [ih store2 h, hst]
        simp

/-- Claim C4 witness: both parts at concrete stores and streams — a
duplicate insert stops the loop with the rest untouched, and an error-free
stream is consumed whole. -/
theorem sink_one_attempt_witness :
    insertDataLoop [dupRecA] [dupRecB, freshRec] = ([dupRecA], some "duplicate key") ∧
    (insertDataLoop [] [dupRecA, freshRec]).1 = [] ++ [dupRecA, freshRec] :=
  ⟨sink_one_attempt_until_first_error.1 [dupRecA] dupRecB [freshRec] "duplicate key" rfl,
   sink_one_attempt_until_first_error.2 [dupRecA, freshRec] [] rfl⟩

/-! ## Claim C5 -/

/-- Claim C5 counterexample: a leaf fetch that fails with a decode error
can still send its record.  In wBadMode the body is a JSON object whose
mode field is a number: json.Unmarshal returns an error (the fetch fails,
first conjunct), but Go's UnmarshalTypeError discipline has already set
StatusSuara from the well-typed status_suara field, and the goroutine of
lines 228-238 tests only data.StatusSuara — never err — before sending, so
the partially-decoded record goes to the channel (second conjunct). -/
theorem failed_fetch_record_still_sent_cex :
    (fetchDataTPS wBadMode (leafResultURL urlTerm "5001")).2.isSome = true ∧
    (processTPSChild wBadMode urlTerm locLeaf).isSome = true := ⟨rfl, rfl⟩

/-- Claim C5 amended: when a leaf fetch fails, the failure is printed, not
retried, and neither siblings nor the process are affected (the error
stays inside the leaf goroutine); the leaf's contribution is dropped
exactly when the data value the failed fetch left behind has StatusSuara
false — always the case for a transport error, which leaves the zero
value — but a malformed body whose status_suara field still decodes to
true is sent despite the error. -/
theorem failed_leaf_fetch_drop (w : World) (url : String) (subLoc : Location) :
    ((fetchDataTPS w (leafResultURL url subLoc.Kode)).1.StatusSuara = false →
      processTPSChild w url subLoc = none) ∧
    (∀ e, w.http (leafResultURL url subLoc.Kode) = HTTPResult.netErr e →
      processTPSChild w url subLoc = none) := by
  have hdrop : (fetchDataTPS w (leafResultURL url subLoc.Kode)).1.StatusSuara = false →
      processTPSChild w url subLoc = none := by
    intro h
    rw [processTPSChild_eq_ite, tpsLeafRecord_statusSuara, h]
    simp
  refine ⟨hdrop, fun e he => hdrop ?_⟩
  unfold fetchDataTPS
  rw [he]

/-- Claim C5 witness: under a transport failure the leaf record is indeed
dropped. -/
theorem failed_leaf_fetch_drop_witness :
    processTPSChild wNet urlTerm locLeaf = none :=
  (failed_leaf_fetch_drop wNet urlTerm locLeaf).2 "connection refused" rfl

/-! ## Claim C6 -/

/-- One semaphore step keeps the token count at or below the capacity and
never changes the capacity. -/
theorem semStep_invariant (g : LimitedWaitGroup) (op : SemOp)
    (h : g.count ≤ g.limit) :
    ((semStep g op).getD g).count ≤ ((semStep g op).getD g).limit ∧
    ((semStep g op).getD g).limit = g.limit := by
  cases op with
  | addToken =>
    by_cases h1 : g.count < g.limit
    · simp only [semStep, if_pos h1, Option.getD_some]
      exact ⟨h1, trivial⟩
    · simp only [semStep, if_neg h1, Option.getD_none]
      exact ⟨h, trivial⟩
  | doneToken =>
    by_cases h1 : 0 < g.count
    · simp only [semStep, if_pos h1, Option.getD_some]
      exact ⟨by omega, trivial⟩
    · simp only [semStep, if_neg h1, Option.getD_none]
      exact ⟨h, trivial⟩

/-- Along any interaction sequence the token count stays at or below the
capacity, and the capacity is fixed. -/
theorem semRun_le_limit (ops : List SemOp) :
    ∀ g : LimitedWaitGroup, g.count ≤ g.limit →
      (semRun g ops).count ≤ g.limit ∧ (semRun g ops).limit = g.limit := by
  induction ops with
  | nil => intro g h; exact ⟨h, rfl⟩
  | cons op rest ih =>
    intro g h
    have hs := semStep_invariant g op h
    have h2 := ih ((semStep g op).getD g) hs.1
    constructor
    · show (semRun ((semStep g op).getD g) rest).count ≤ g.limit
      exact le_trans h2.1 (le_of_eq hs.2)
    · show (semRun ((semStep g op).getD g) rest).limit = g.limit
      rw [h2.2, hs.2]

/-- Claim C6: for a group constructed by NewLimitedWaitGroup limit, after
any sequence of Add-token sends and Done receives the number of
reserved-and-not-yet-released slots never exceeds limit; an Add send
blocks (takes no step) whenever all limit slots are taken; and a Done
receive frees exactly one slot. -/
theorem lwg_slots_bounded (limit : Nat) (ops : List SemOp) :
    (semRun (NewLimitedWaitGroup limit) ops).count ≤ limit ∧
    (∀ g : LimitedWaitGroup, g.count = g.limit → semStep g SemOp.addToken = none) ∧
    (∀ g : LimitedWaitGroup, 0 < g.count →
      semStep g SemOp.doneToken = some { limit := g.limit, count := g.count - 1 }) := by
  refine ⟨(semRun_le_limit ops (NewLimitedWaitGroup limit) (by simp [NewLimitedWaitGroup])).1,
    ?_, ?_⟩
  · intro g h
    simp [semStep, h]
  · intro g h
    simp [semStep, h]

/-- Claim C6 witness: with capacity 1, two Add sends and a Done leave at
most one slot taken; an Add against a full group of capacity 1 blocks; a
Done against it frees its one slot. -/
theorem lwg_slots_bounded_witness :
    (semRun (NewLimitedWaitGroup 1) [SemOp.addToken, SemOp.addToken, SemOp.doneToken]).count ≤ 1 ∧
    semStep { limit := 1, count := 1 } SemOp.addToken = none ∧
    semStep { limit := 1, count := 1 } SemOp.doneToken = some { limit := 1, count := 0 } :=
  ⟨(lwg_slots_bounded 1 [SemOp.addToken, SemOp.addToken, SemOp.doneToken]).1,
   (lwg_slots_bounded 1 []).2.1 { limit := 1, count := 1 } rfl,
   (lwg_slots_bounded 1 []).2.2 { limit := 1, count := 1 } (by decide)⟩

/-! ## Claim C7 -/

/-- dropWhile steps over an element satisfying the predicate. -/
theorem dropWhile_cons_true {p : Char → Bool} {a : Char} {l : List Char}
    (h : p a = true) : List.dropWhile p (a :: l) = List.dropWhile p l := by
  simp [List.dropWhile_cons, h]

/-- dropWhile stops at an element refuting the predicate. -/
theorem dropWhile_cons_false {p : Char → Bool} {a : Char} {l : List Char}
    (h : p a = false) : List.dropWhile p (a :: l) = a :: l := by
  simp [List.dropWhile_cons, h]

/-- strings.TrimRight with the ".json" cutset removes exactly an appended
".json" whenever the character before it is outside the cutset (getLastD's
default '0' covers the empty prefix, whose result is also empty). -/
theorem goTrimRight_append_ext (p : List Char)
    (h : jsonExt.contains (p.getLastD '0') = false) :
    goTrimRight (p ++ jsonExt) jsonExt = p := by
  rcases List.eq_nil_or_concat p with rfl | ⟨q, c, rfl⟩
  · decide
  · rw [List.concat_eq_append] at h ⊢
    rw [List.getLastD_concat] at h
    unfold goTrimRight
    have hrev : jsonExt.reverse = ['n', 'o', 's', 'j', '.'] := by decide
    have h1 : ((q ++ [c]) ++ jsonExt).reverse = 'n' :: 'o' :: 's' :: 'j' :: '.' :: c :: q.reverse := by
      rw [List.reverse_append, List.reverse_append, hrev]
      simp
    rw [h1, dropWhile_cons_true (by decide), dropWhile_cons_true (by decide),
      dropWhile_cons_true (by decide), dropWhile_cons_true (by decide),
      dropWhile_cons_true (by decide), dropWhile_cons_false h]
    simp

/-- A list is a Boolean prefix of itself followed by anything. -/
theorem isPrefixOf_append_self (l t : List Char) : l.isPrefixOf (l ++ t) = true := by
  induction l with
  | nil => simp [List.isPrefixOf]
  | cons a l2 ih => simp [List.isPrefixOf, ih]

/-- The spec's suffix removal undoes an appended ".json" unconditionally. -/
theorem trimSuffixJson_append (p : List Char) : trimSuffixJson (p ++ jsonExt) = p := by
  unfold trimSuffixJson
  have h1 : jsonExt.isSuffixOf (p ++ jsonExt) = true := by
    unfold List.isSuffixOf
    rw [List.reverse_append]
    exact isPrefixOf_append_self _ _
  rw [h1]
  simp [List.length_append]

/-- Claim C7 counterexample: at the listing URL for a parent code ending in
the character 'n' (any code ending in one of . j s o n behaves alike), the
code's strings.TrimRight — which strips a trailing character run drawn
from ".json", not the suffix ".json" — also eats the final 'n' of the
code, while the spec's wording (remove the trailing ".json") keeps it: the
two URLs differ. -/
theorem url_trimright_cex :
    leafResultURLChars ("https://sirekap-obj-data.kpu.go.id/wilayah/pemilu/ppwp/110n.json".data)
        ("5001".data) =
      "https://sirekap-obj-data.kpu.go.id/pemilu/hhcw/ppwp/110/5001.json".data ∧
    leafResultURLSpecChars ("https://sirekap-obj-data.kpu.go.id/wilayah/pemilu/ppwp/110n.json".data)
        ("5001".data) =
      "https://sirekap-obj-data.kpu.go.id/pemilu/hhcw/ppwp/110n/5001.json".data ∧
    leafResultURLChars ("https://sirekap-obj-data.kpu.go.id/wilayah/pemilu/ppwp/110n.json".data)
        ("5001".data) ≠
      leafResultURLSpecChars ("https://sirekap-obj-data.kpu.go.id/wilayah/pemilu/ppwp/110n.json".data)
        ("5001".data) :=
  ⟨by decide, by decide, by decide⟩

/-- Claim C7 amended: the child-listing URL is exactly b ++ k ++ ".json";
the leaf-result URL applies the segment replacement and then
strings.TrimRight with the cutset ".json" — the longest trailing run of
characters drawn from {., j, s, o, n} — before appending "/" ++ k ++
".json".  Whenever the replaced URL ends in ".json" preceded by a
character outside that set (every numeric code does this), the TrimRight
equals the spec's removal of the ".json" suffix and the two constructions
agree. -/
theorem url_construction (b k : String) (u kode p : List Char)
    (hrep : goReplaceAll u ("wilayah/pemilu/ppwp".data) ("pemilu/hhcw/ppwp".data) =
      p ++ jsonExt)
    (hlast : jsonExt.contains (p.getLastD '0') = false) :
    childListingURL b k = b ++ k ++ ".json" ∧
    leafResultURLChars u kode = leafResultURLSpecChars u kode := by
  refine ⟨rfl, ?_⟩
  unfold leafResultURLChars leafResultURLSpecChars
  rw [hrep, goTrimRight_append_ext p hlast, trimSuffixJson_append]

/-- Claim C7 witness: at the listing URL of the numeric code 11 under the
program's base URL, both hypotheses hold by computation and the code's
leaf URL coincides with the spec's. -/
theorem url_construction_witness :
    childListingURL baseURL "11" = baseURL ++ "11" ++ ".json" ∧
    leafResultURLChars ("https://sirekap-obj-data.kpu.go.id/wilayah/pemilu/ppwp/11.json".data)
        ("5001".data) =
      leafResultURLSpecChars ("https://sirekap-obj-data.kpu.go.id/wilayah/pemilu/ppwp/11.json".data)
        ("5001".data) :=
  url_construction baseURL "11"
    ("https://sirekap-obj-data.kpu.go.id/wilayah/pemilu/ppwp/11.json".data) ("5001".data)
    ("https://sirekap-obj-data.kpu.go.id/pemilu/hhcw/ppwp/11".data)
    (by decide) (by decide)

/-! ## Claim C8 -/

/-- When parseInt64Core reports an error its value is 0 (syntax error) or
an int64 bound (range error): never anything else, but not always 0. -/
theorem parseInt64Core_failure_values (neg : Bool) (digits : List Char)
    (h : (parseInt64Core neg digits).2 = false) :
    (parseInt64Core neg digits).1 = 0 ∨
    (parseInt64Core neg digits).1 = (2 : Int) ^ 63 - 1 ∨
    (parseInt64Core neg digits).1 = -((2 : Int) ^ 63) := by
  rcases hd : decDigits? digits with _ | v
  · have e : parseInt64Core neg digits = (0, false) := by
      unfold parseInt64Core
      rw [hd]
    rw [e]
    exact Or.inl rfl
  · have e : parseInt64Core neg digits =
        if neg = false ∧ (2 : Int) ^ 63 ≤ (v : Int) then ((2 : Int) ^ 63 - 1, false)
        else if neg = true ∧ (2 : Int) ^ 63 < (v : Int) then (-((2 : Int) ^ 63), false)
        else ((if neg = true then -(v : Int) else (v : Int)), true) := by
      unfold parseInt64Core
      rw [hd]
    rw [e] at h ⊢
    split_ifs at h ⊢ with h1 h2 <;> simp_all

/-- When strconv.ParseInt(s, 10, 64) reports an error its value is 0 or an
int64 bound. -/
theorem parseInt64_failure_values (s : String) (h : (parseInt64 s).2 = false) :
    (parseInt64 s).1 = 0 ∨ (parseInt64 s).1 = (2 : Int) ^ 63 - 1 ∨
    (parseInt64 s).1 = -((2 : Int) ^ 63) := by
  rcases hs : s.data with _ | ⟨c, rest⟩
  · have e : parseInt64 s = (0, false) := by
      unfold parseInt64
      rw [hs]
    rw [e]
    exact Or.inl rfl
  · have e : parseInt64 s =
        if c = '+' then parseInt64Core false rest
        else if c = '-' then parseInt64Core true rest
        else parseInt64Core false (c :: rest) := by
      unfold parseInt64
      rw [hs]
    rw [e] at h ⊢
    split_ifs at h ⊢ <;> exact parseInt64Core_failure_values _ _ h

/-- A leaf descriptor whose code is 2 to the power 63, one past the largest
int64. -/
def locOverflow : Location := { Kode := "9223372036854775808", Tingkat := 5 }

/-- Claim C8 counterexample: for the code "9223372036854775808" (2 to the
power 63) strconv.ParseInt fails — the code is not parseable as an int64 —
yet Go returns the clamped bound 9223372036854775807 together with the
range error, so the sent record's id is that bound, not the zero the claim
asserts. -/
theorem id_parse_failure_nonzero_cex :
    parseInt64 "9223372036854775808" = (9223372036854775807, false) ∧
    Option.map TPSData.Id (processTPSChild wTrue urlTerm locOverflow) =
      some 9223372036854775807 :=
  ⟨by decide, rfl⟩

/-- Claim C8 amended: every record handed toward the sink carries as id the
result of strconv.ParseInt(code, 10, 64) — the payload's own id field is
always overwritten — and the parse error is silently discarded; when the
parse fails the record proceeds with id 0 for a syntactically invalid
code, or with the id clamped to the nearest int64 bound
(9223372036854775807 or -9223372036854775808) for a syntactically valid
code outside the int64 range. -/
theorem leaf_id_from_code (w : World) (url : String) (subLoc : Location) (d : TPSData)
    (h : processTPSChild w url subLoc = some d) :
    d.Id = (parseInt64 subLoc.Kode).1 ∧
    ((parseInt64 subLoc.Kode).2 = false →
      d.Id = 0 ∨ d.Id = (2 : Int) ^ 63 - 1 ∨ d.Id = -((2 : Int) ^ 63)) := by
  rw [processTPSChild_eq_ite] at h
  by_cases hs : (tpsLeafRecord w url subLoc).StatusSuara
  · rw [if_pos hs] at h
    have hd : tpsLeafRecord w url subLoc = d := by injection h
    have hid : d.Id = (parseInt64 subLoc.Kode).1 := by rw [← hd]; rfl
    refine ⟨hid, fun hf => ?_⟩
    rw [hid]
    exact parseInt64_failure_values subLoc.Kode hf
  · rw [if_neg hs] at h
    simp at h

/-- Claim C8 witness: a clean world and the code "123" — the sent record's
id is ParseInt("123") = 123, and the parse-failure implication holds with
its hypothesis false. -/
theorem leaf_id_from_code_witness :
    ({ Id := 123, StatusSuara := true } : TPSData).Id = (parseInt64 "123").1 ∧
    ((parseInt64 "123").2 = false →
      ({ Id := 123, StatusSuara := true } : TPSData).Id = 0 ∨
      ({ Id := 123, StatusSuara := true } : TPSData).Id = (2 : Int) ^ 63 - 1 ∨
      ({ Id := 123, StatusSuara := true } : TPSData).Id = -((2 : Int) ^ 63)) :=
  leaf_id_from_code wTrue urlTerm { Kode := "123", Tingkat := 5 }
    { Id := 123, StatusSuara := true } rfl

/-! ## Claim C9 -/

/-- Appending an object entry whose key matches no given field tag changes
no field lookup. -/
theorem lookupField_append_unmatched (fields : List (String × JVal)) (k : String)
    (v : JVal) (name : String) (h : keyMatches k name = false) :
    lookupField (fields ++ [(k, v)]) name = lookupField fields name := by
  unfold lookupField
  rw [List.filter_append]
  have h2 : List.filter (fun kv => keyMatches kv.1 name) [(k, v)] = [] := by
    simp [List.filter_cons, h]
  rw [h2, List.append_nil]

/-- decIntField ignores an appended unmatched entry. -/
theorem decIntField_append_unmatched (fields : List (String × JVal)) (k : String)
    (v : JVal) (name : String) (h : keyMatches k name = false) :
    decIntField (fields ++ [(k, v)]) name = decIntField fields name := by
  unfold decIntField
  rw [lookupField_append_unmatched fields k v name h]

/-- decStrField ignores an appended unmatched entry. -/
theorem decStrField_append_unmatched (fields : List (String × JVal)) (k : String)
    (v : JVal) (name : String) (h : keyMatches k name = false) :
    decStrField (fields ++ [(k, v)]) name = decStrField fields name := by
  unfold decStrField
  rw [lookupField_append_unmatched fields k v name h]

/-- decBoolField ignores an appended unmatched entry. -/
theorem decBoolField_append_unmatched (fields : List (String × JVal)) (k : String)
    (v : JVal) (name : String) (h : keyMatches k name = false) :
    decBoolField (fields ++ [(k, v)]) name = decBoolField fields name := by
  unfold decBoolField
  rw [lookupField_append_unmatched fields k v name h]

/-- decChartField ignores an appended unmatched entry. -/
theorem decChartField_append_unmatched (fields : List (String × JVal)) (k : String)
    (v : JVal) (name : String) (h : keyMatches k name = false) :
    decChartField (fields ++ [(k, v)]) name = decChartField fields name := by
  unfold decChartField
  rw [lookupField_append_unmatched fields k v name h]

/-- decImagesField ignores an appended unmatched entry. -/
theorem decImagesField_append_unmatched (fields : List (String × JVal)) (k : String)
    (v : JVal) (name : String) (h : keyMatches k name = false) :
    decImagesField (fields ++ [(k, v)]) name = decImagesField fields name := by
  unfold decImagesField
  rw [lookupField_append_unmatched fields k v name h]

/-- decAnyField ignores an appended unmatched entry. -/
theorem decAnyField_append_unmatched (fields : List (String × JVal)) (k : String)
    (v : JVal) (name : String) (h : keyMatches k name = false) :
    decAnyField (fields ++ [(k, v)]) name = decAnyField fields name := by
  unfold decAnyField
  rw [lookupField_append_unmatched fields k v name h]

/-- decAdmField ignores an appended unmatched entry. -/
theorem decAdmField_append_unmatched (fields : List (String × JVal)) (k : String)
    (v : JVal) (name : String) (h : keyMatches k name = false) :
    decAdmField (fields ++ [(k, v)]) name = decAdmField fields name := by
  unfold decAdmField
  rw [lookupField_append_unmatched fields k v name h]

/-- A leaf body with one unknown extra field beside a confirmed flag. -/
def objExtra : JVal :=
  JVal.obj [("status_suara", JVal.bool true), ("extra_field", JVal.str "retained?")]

/-- The same leaf body without the unknown field. -/
def objPlain : JVal := JVal.obj [("status_suara", JVal.bool true)]

/-- Claim C9 counterexample: decoding a body with the unknown field
extra_field succeeds (first conjunct — that much of the claim holds), but
the unknown value is not retained anywhere: the untyped passthrough field
psu of the decoded record is still nil (second conjunct), and the decoded
record is identical to the one decoded without the unknown field (third
conjunct) — the unknown field is discarded, not kept in psu. -/
theorem unknown_field_discarded_cex :
    (decodeTPSData objExtra).2 = none ∧
    (decodeTPSData objExtra).1.PSU = JVal.null ∧
    (decodeTPSData objExtra).1 = (decodeTPSData objPlain).1 := ⟨rfl, rfl, rfl⟩

/-- Claim C9 amended: an object field whose key matches none of TPSData's
nine json tags (case-insensitively, as encoding/json matches) neither
fails the decode nor changes its result in any way — the whole decode,
error component included, is as if the unknown field were absent, so the
unknown value is discarded; the untyped field psu holds only the body's
own psu entry, it is not a passthrough for unknown fields. -/
theorem decode_ignores_unknown_fields (fields : List (String × JVal)) (k : String)
    (v : JVal) (h : ∀ name ∈ tpsFieldTags, keyMatches k name = false) :
    decodeTPSData (JVal.obj (fields ++ [(k, v)])) = decodeTPSData (JVal.obj fields) := by
  have h1 := h "id" (by simp [tpsFieldTags])
  have h2 := h "mode" (by simp [tpsFieldTags])
  have h3 := h "chart" (by simp [tpsFieldTags])
  have h4 := h "images" (by simp [tpsFieldTags])
  have h5 := h "administrasi" (by simp [tpsFieldTags])
  have h6 := h "psu" (by simp [tpsFieldTags])
  have h7 := h "ts" (by simp [tpsFieldTags])
  have h8 := h "status_suara" (by simp [tpsFieldTags])
  have h9 := h "status_adm" (by simp [tpsFieldTags])
  simp only [decodeTPSData]
  rw [decIntField_append_unmatched fields k v "id" h1,
    decStrField_append_unmatched fields k v "mode" h2,
    decChartField_append_unmatched fields k v "chart" h3,
    decImagesField_append_unmatched fields k v "images" h4,
    decAdmField_append_unmatched fields k v "administrasi" h5,
    decAnyField_append_unmatched fields k v "psu" h6,
    decStrField_append_unmatched fields k v "ts" h7,
    decBoolField_append_unmatched fields k v "status_suara" h8,
    decBoolField_append_unmatched fields k v "status_adm" h9]

/-- Claim C9 witness: appending the unknown entry extra_field to a
status_suara body leaves the decode unchanged. -/
theorem decode_ignores_unknown_witness :
    decodeTPSData (JVal.obj ([("status_suara", JVal.bool true)] ++
        [("extra_field", JVal.str "retained?")])) =
      decodeTPSData (JVal.obj [("status_suara", JVal.bool true)]) :=
  decode_ignores_unknown_fields [("status_suara", JVal.bool true)] "extra_field"
    (JVal.str "retained?") (by decide)

/-! ## Claim C10 -/

/-- Claim C10: whenever the initial child-listing fetch succeeds, both
fetchAndStoreTPS and processAndStoreLocation return nil — the errors of
the spawned per-child tasks (leaf fetches, recursive descents) are only
printed inside their goroutines and never reach the function's returned
error value. -/
theorem engine_returns_nil_after_listing (w : World) (burl : String) (loc : Location)
    (subs : List Location) (fuel : Nat)
    (h : fetchLocations w (childListingURL burl loc.Kode) = Except.ok subs) :
    (fetchAndStoreTPS w burl loc).2 = Except.ok () ∧
    (processAndStoreLocation w (fuel + 1) burl loc).2 = Except.ok () := by
  constructor
  · unfold fetchAndStoreTPS
    rw [h]
  · simp only [processAndStoreLocation]
    rw [h]

/-- Claim C10 witness: in a world of empty listings the fetch succeeds and
both calls return nil. -/
theorem engine_returns_nil_witness :
    (fetchAndStoreTPS wEmptyList baseURL locRoot).2 = Except.ok () ∧
    (processAndStoreLocation wEmptyList 1 baseURL locRoot).2 = Except.ok () :=
  engine_returns_nil_after_listing wEmptyList baseURL locRoot [] 0 rfl

end Sipantau
